import Mathlib

/-!
# Verification of the `xa` scheduling engine against its specification

Shallow embedding of the core scheduling code of the repository
(`core/scheduler.py`, `core/definitions.py`, `infra/arg_utils.py`,
`infra/file_utils.py`, `infra/net_utils.py`) in Lean 4, together with
theorems settling the specification's claims about it.

Conventions of the embedding:
* Python machine-level ints are unbounded, so they become `Int`.
* A Python value that may be `None` becomes an `Option`.
* A function that can raise (an `assert` or an exception) becomes
  `Except String α`; the message strings follow the source messages.
* Python's dynamic `isinstance` checks are modelled on a dynamic value
  type `PyObj` that tags class instances; typed schedule values inject
  into it.
* `make_schedule` is modelled as reached from the program's `main` entry
  point, where the `Random` singleton has already been created with a
  seed (`main.py` line 18) before `make_schedule`'s `Random().seed(...)`
  call; the call mutates only that external singleton and has no effect
  on the structure that is built.
-/

namespace XA

/-- `core/definitions.py`, class `LogLevels`: the fixed log-level enum;
`get_all` collects the class attribute values. -/
def LogLevels.get_all : List String :=
  ["DEBUG", "INFO", "WARNING", "ERROR", "CRITICAL"]

/-- `core/definitions.py`, class `ConfigDefaultValues`: defaults used by
`make_schedule` for omitted configuration keys (only the ones the
scheduler reads are embedded). -/
structure Defaults where
  seed : Int := 12345
  duration : Int := 5 * 60
  accelerators : Int := 8
  debug : Bool := False
  logLevel : String := "INFO"
  maximumWorkloads : Int := 100
  minimumMemory : Int := 2
  minimumCores : Int := 1
  minimumThreads : Int := 1
  minimumWorkloads : Int := 1
  timeout : Int := 1 * 60 * 60

/-- The single `ConfigDefaultValues` table of `core/definitions.py`. -/
def ConfigDefaultValues : Defaults := {}

/-- `infra/arg_utils.py`, `ArgHelperActions.valid_seed`: asserts
`0 <= s <= 1_000_000_000` and returns the seed. -/
def ArgHelperActions.valid_seed (s : Int) : Except String Int :=
  if s < 0 then .error "Seed value should be 0 or higher"
  else if 1000000000 < s then
    .error "Seed value should be something reasonable to use (currently less than 1 billion)"
  else .ok s

/-- `infra/arg_utils.py`, `ArgHelperActions.valid_duration`: asserts
`0 < d <= 10_000` and returns the duration. -/
def ArgHelperActions.valid_duration (d : Int) : Except String Int :=
  if d ≤ 0 then .error "Duration value should be higher than 0"
  else if 10000 < d then
    .error "Duration value should be something reasonable to use (currently less than 10 thousand)"
  else .ok d

/-- `core/scheduler.py`, class `Info`: the run/constraint context.
Fields are listed in the assignment order of `Info.__init__`
(which is also the `__dict__` iteration order used by `to_json`).
`name` and `description` keep the possibly-`None` values that
`make_schedule` passes in via `config.get(..., None)`. -/
structure Info where
  name : Option String
  description : Option String
  args : String
  nodes : List String
  debug : Bool
  log_level : String
  seed : Int
  max_duration : Int
  accelerators : Int
  max_cores : Option Int
  max_threads : Option Int
  max_memory : Option Int
  min_memory : Int
  min_cores : Int
  min_threads : Int
  timeout : Int
  min_workloads : Int
  max_workloads : Int
deriving Repr, DecidableEq

/-- `core/scheduler.py`, `Info.__init__`: constructs an `Info`, running
the constructor's `assert`s in source order; a failed assertion is an
`Except.error`, so no `Info` value is produced from invalid inputs. -/
def Info.build (name description : Option String) (nodes : List String)
    (debug : Bool) (log_level : String) (seed : Int) (args : String)
    (max_duration accelerators : Int)
    (max_cores max_threads max_memory : Option Int)
    (min_memory min_cores min_threads min_workloads max_workloads : Int)
    (timeout : Int) : Except String Info :=
  if ¬ (log_level ∈ LogLevels.get_all) then .error "Invalid log level"
  else match ArgHelperActions.valid_seed seed with
  | .error e => .error e
  | .ok seedv =>
    match ArgHelperActions.valid_duration max_duration with
    | .error e => .error e
    | .ok durv =>
      if accelerators ≤ 0 then .error "Invalid accelerators"
      else if min_memory ≤ 0 then .error "Invalid minimum memory"
      else if min_cores ≤ 0 then .error "Invalid minimum cores"
      else if min_threads ≤ 0 then .error "Invalid minimum threads"
      else if min_workloads ≤ 0 then .error "Invalid minimum workloads"
      else if max_workloads ≤ 0 then .error "Invalid maximum workloads"
      else match ArgHelperActions.valid_duration timeout with
      | .error e => .error e
      | .ok tov =>
        .ok { name := name, description := description, args := args,
              nodes := nodes, debug := debug, log_level := log_level,
              seed := seedv, max_duration := durv,
              accelerators := accelerators, max_cores := max_cores,
              max_threads := max_threads, max_memory := max_memory,
              min_memory := min_memory, min_cores := min_cores,
              min_threads := min_threads, timeout := tov,
              min_workloads := min_workloads,
              max_workloads := max_workloads }

/-- `core/scheduler.py`, class `Load`, generic in how the governing
`Info` is referred to (`Info` by value for the value-level model,
`Nat` for the reference/heap model of sharing).  `workload` is
`Option String` because `make_schedule` passes
`wl.get("workload", None)` for object entries.  The `mod` field of the
Python class is always `None` until execution and is omitted here. -/
structure LoadG (α : Type) where
  workload : Option String
  info : α
deriving Repr, DecidableEq

/-- `core/scheduler.py`, class `Step`: an ordered list of `Load`s plus
the `Info` they share (generic in the `Info` representation). -/
structure StepG (α : Type) where
  workloads : List (LoadG α)
  info : α
deriving Repr, DecidableEq

/-- `core/scheduler.py`, class `Schedule`: an ordered list of `Step`s
plus the top-level `Info` (generic in the `Info` representation). -/
structure ScheduleG (α : Type) where
  steps : List (StepG α)
  info : α
deriving Repr, DecidableEq

/-- A `Load` with its `Info` held by value. -/
abbrev Load := LoadG Info

/-- A `Step` with its `Info` held by value. -/
abbrev Step := StepG Info

/-- A `Schedule` with its `Info` held by value. -/
abbrev Schedule := ScheduleG Info

/-- A metadata value carried by an object-shaped workload entry of a
configuration (string, integer or boolean, per the schema in
`infra/data/config_schema.py`). -/
inductive MetaVal where
  | mstr (s : String)
  | mint (n : Int)
  | mbool (b : Bool)
deriving Repr, DecidableEq

/-- One element of a parallel-group workload entry: a bare workload
identifier or an object with a `workload` key and extra metadata
(`make_schedule` lines 212-217 distinguishes exactly `dict` vs other). -/
inductive WItem where
  | name (s : String)
  | obj (workload : Option String) (meta : List (String × MetaVal))
deriving Repr, DecidableEq

/-- One entry of a configuration's `workloads` list, as classified by
the `isinstance` tests of `make_schedule` lines 208-224: a `list`
(parallel group), a `dict` (object with a `workload` key and metadata)
or anything else (treated as a single workload identifier). -/
inductive WEntry where
  | single (s : String)
  | obj (workload : Option String) (meta : List (String × MetaVal))
  | group (items : List WItem)
deriving Repr, DecidableEq

/-- The configuration mapping as read by `make_schedule`
(`config.get(key, default)` for each key): a field is `none` when the
key is absent, in which case the scheduler's default applies.
`make_schedule` receives a `dict` here; `load_config`
(`infra/config_utils.py` line 17) returns a `dict` argument unchanged
without validating it. -/
structure Config where
  name : Option String := none
  description : Option String := none
  nodes : Option (List String) := none
  debug : Option Bool := none
  log_level : Option String := none
  seed : Option Int := none
  args : Option String := none
  duration : Option Int := none
  accelerators : Option Int := none
  maximum_cores : Option Int := none
  maximum_threads : Option Int := none
  maximum_memory : Option Int := none
  maximum_workloads : Option Int := none
  minimum_memory : Option Int := none
  minimum_cores : Option Int := none
  minimum_threads : Option Int := none
  minimum_workloads : Option Int := none
  timeout : Option Int := none
  optional_workloads : List WEntry := []
  workloads : List WEntry := []
deriving Repr, DecidableEq

/-- The body of the group branch of `make_schedule` (lines 212-217):
a `dict` item contributes `wl.get("workload", None)`, anything else is
used as the workload name itself. -/
def buildLoad (info : α) : WItem → LoadG α
  | .name s => { workload := some s, info := info }
  | .obj w _meta => { workload := w, info := info }

/-- One iteration of the `for workload in workload_data` loop of
`make_schedule` (lines 208-224): each entry appends exactly one `Step`,
and every `Load` and `Step` receives the same shared `info`. -/
def entryStep (info : α) : WEntry → StepG α
  | .group items => { workloads := items.map (buildLoad info), info := info }
  | .obj w _meta => { workloads := [{ workload := w, info := info }], info := info }
  | .single s => { workloads := [{ workload := some s, info := info }], info := info }

/-- The whole step-building loop of `make_schedule`: one `Step` per
`workloads` entry, in configuration order. -/
def buildSteps (info : α) (ws : List WEntry) : List (StepG α) :=
  ws.map (entryStep info)

/-- Python truthiness of an optional string (`assert info.name`):
`None` and the empty string are falsy. -/
def truthyStr : Option String → Bool
  | none => false
  | some s => ¬ (s = "")

/-- `core/scheduler.py`, `make_schedule` (value-level model): builds the
top-level `Info` from the configuration with the declared defaults,
asserts `info.name` and `info.description` are truthy, then builds one
`Step` per `workloads` entry.  `sysId` stands for `get_system_id()`
(the local hostname), the default node list being `[get_system_id()]`. -/
def make_schedule (sysId : String) (cfg : Config) : Except String Schedule :=
  match Info.build cfg.name cfg.description (cfg.nodes.getD [sysId])
      (cfg.debug.getD ConfigDefaultValues.debug)
      (cfg.log_level.getD ConfigDefaultValues.logLevel)
      (cfg.seed.getD ConfigDefaultValues.seed)
      (cfg.args.getD "")
      (cfg.duration.getD ConfigDefaultValues.duration)
      (cfg.accelerators.getD ConfigDefaultValues.accelerators)
      cfg.maximum_cores cfg.maximum_threads cfg.maximum_memory
      (cfg.minimum_memory.getD ConfigDefaultValues.minimumMemory)
      (cfg.minimum_cores.getD ConfigDefaultValues.minimumCores)
      (cfg.minimum_threads.getD ConfigDefaultValues.minimumThreads)
      (cfg.minimum_workloads.getD ConfigDefaultValues.minimumWorkloads)
      (cfg.maximum_workloads.getD ConfigDefaultValues.maximumWorkloads)
      (cfg.timeout.getD ConfigDefaultValues.timeout) with
  | .error e => .error e
  | .ok info =>
    if ¬ truthyStr info.name then .error "Invalid configuration: missing name"
    else if ¬ truthyStr info.description then
      .error "Invalid configuration: missing description"
    else .ok { steps := buildSteps info cfg.workloads, info := info }

/-- Python runtime values, as far as `verify_schedule` and the
serialization layer inspect them: the plain JSON-like data plus tagged
instances of the scheduler classes (`isinstance` is a tag test). -/
inductive PyObj where
  | pyNone
  | pyBool (b : Bool)
  | pyInt (n : Int)
  | pyStr (s : String)
  | pyList (xs : List PyObj)
  | pyDict (kvs : List (String × PyObj))
  | pyInfo (i : Info)
  | pyLoad (workload : PyObj) (info : PyObj) (mod : PyObj)
  | pyStep (workloads : PyObj) (info : PyObj)

/-- A `Schedule` object as `verify_schedule` receives it: its `steps`
and `info` attributes may hold arbitrary runtime values (after
`Schedule(**schedule_data)` in `load_schedule` they are plain dicts). -/
structure DynSchedule where
  steps : PyObj
  info : PyObj

/-- The inner loop of `verify_schedule` (lines 155-157): for each
element of a step's `workloads`, assert it is a `Load` and its `info`
an `Info`. -/
def checkLoads : List PyObj → Except String Unit
  | [] => .ok ()
  | .pyLoad _ (.pyInfo _) _ :: rest => checkLoads rest
  | .pyLoad _ _ _ :: _ => .error "Invalid load info"
  | _ :: _ => .error "Invalid step workload"

/-- The outer loop of `verify_schedule` (lines 152-157): each element
of `schedule.steps` must be a `Step` whose `info` is an `Info`;
iterating `step.workloads` requires it to be a list, and its elements
are checked by `checkLoads`.  Note that an empty `workloads` list
passes: the inner loop simply runs zero times. -/
def checkSteps : List PyObj → Except String Unit
  | [] => .ok ()
  | .pyStep (.pyList ls) (.pyInfo _) :: rest =>
    match checkLoads ls with
    | .ok _ => checkSteps rest
    | .error e => .error e
  | .pyStep _ (.pyInfo _) :: _ => .error "TypeError: step workloads object is not iterable"
  | .pyStep _ _ :: _ => .error "Invalid step info"
  | _ :: _ => .error "Invalid schedule step"

/-- `core/scheduler.py`, `verify_schedule` (lines 146-159): asserts
`schedule.steps` is a non-empty list, checks every step and load tag,
asserts `schedule.info` is an `Info`, and returns `True`. -/
def verify_schedule (s : DynSchedule) : Except String Bool :=
  match s.steps with
  | .pyList steps =>
    if steps.isEmpty then .error "Need at least one step in the schedule"
    else match checkSteps steps with
    | .error e => .error e
    | .ok _ =>
      match s.info with
      | .pyInfo _ => .ok true
      | _ => .error "Invalid schedule info"
  | _ => .error "Invalid schedule steps"

/-- Injection of a typed `Load` into the runtime-value world
(a genuine `Load` instance, `mod` still `None`). -/
def Load.toPy (l : Load) : PyObj :=
  .pyLoad (match l.workload with | some s => .pyStr s | none => .pyNone)
    (.pyInfo l.info) .pyNone

/-- Injection of a typed `Step` into the runtime-value world. -/
def Step.toPy (st : Step) : PyObj :=
  .pyStep (.pyList (st.workloads.map Load.toPy)) (.pyInfo st.info)

/-- Injection of a typed `Schedule` into the runtime-value world, for
feeding to `verify_schedule`. -/
def Schedule.toDyn (s : Schedule) : DynSchedule :=
  { steps := .pyList (s.steps.map Step.toPy), info := .pyInfo s.info }

/-- `Option String` as serialized by `jsonify`. -/
def optStrPy : Option String → PyObj
  | none => .pyNone
  | some s => .pyStr s

/-- `Option Int` as serialized by `jsonify`. -/
def optIntPy : Option Int → PyObj
  | none => .pyNone
  | some n => .pyInt n

/-- `Info.to_json` = `jsonify(self.__dict__)`: a plain dict of the
fields, in `__init__` assignment order. -/
def Info.to_json (i : Info) : PyObj :=
  .pyDict [("name", optStrPy i.name), ("description", optStrPy i.description),
    ("args", .pyStr i.args), ("nodes", .pyList (i.nodes.map .pyStr)),
    ("debug", .pyBool i.debug), ("log_level", .pyStr i.log_level),
    ("seed", .pyInt i.seed), ("max_duration", .pyInt i.max_duration),
    ("accelerators", .pyInt i.accelerators),
    ("max_cores", optIntPy i.max_cores),
    ("max_threads", optIntPy i.max_threads),
    ("max_memory", optIntPy i.max_memory),
    ("min_memory", .pyInt i.min_memory), ("min_cores", .pyInt i.min_cores),
    ("min_threads", .pyInt i.min_threads), ("timeout", .pyInt i.timeout),
    ("min_workloads", .pyInt i.min_workloads),
    ("max_workloads", .pyInt i.max_workloads)]

/-- `Load.to_json`: `{"workload": ..., "info": ..., "mod": None}`
(at build time `mod` is always `None`). -/
def Load.to_json (l : Load) : PyObj :=
  .pyDict [("workload", optStrPy l.workload), ("info", l.info.to_json),
    ("mod", .pyNone)]

/-- `Step.to_json`: `{"workloads": [...], "info": {...}}`. -/
def Step.to_json (st : Step) : PyObj :=
  .pyDict [("workloads", .pyList (st.workloads.map Load.to_json)),
    ("info", st.info.to_json)]

/-- `Schedule.to_json`: `{"steps": [...], "info": {...}}` — the value
`save_schedule` passes to `save_json`. -/
def Schedule.to_json (s : Schedule) : PyObj :=
  .pyDict [("steps", .pyList (s.steps.map Step.to_json)),
    ("info", s.info.to_json)]

/-- `infra/file_utils.py`, `save_json` (lines 230-241): its body is
`json.dumps(str(data), f)`.  Python's `json.dumps` accepts exactly one
positional argument (everything else is keyword-only), so passing the
file object positionally raises `TypeError` before anything is written
to the file. -/
def save_json (_data : PyObj) : Except String Unit :=
  .error "TypeError: dumps() takes 1 positional argument but 2 were given"

/-- `core/scheduler.py`, `save_schedule`: `save_json(schedule.to_json(), file)`. -/
def save_schedule (s : Schedule) : Except String Unit :=
  save_json s.to_json

/-- Lookup in a Python dict modelled as an association list. -/
def dictLookup (kvs : List (String × PyObj)) (k : String) : Option PyObj :=
  (kvs.find? (fun p => p.1 = k)).map (fun p => p.2)

/-- `Schedule(**schedule_data)` in `load_schedule` (line 167): the
loaded data must be a mapping supplying exactly the constructor
parameters `steps` and `info`; the attribute values are taken as-is
(no reconstruction of `Step`/`Load`/`Info` objects happens). -/
def schedule_unpack (d : PyObj) : Except String DynSchedule :=
  match d with
  | .pyDict kvs =>
    match dictLookup kvs "steps", dictLookup kvs "info" with
    | some st, some inf =>
      if kvs.length = 2 then .ok { steps := st, info := inf }
      else .error "TypeError: unexpected keyword argument"
    | _, _ => .error "TypeError: missing required argument"
  | _ => .error "TypeError: argument after must be a mapping"

/-- `core/scheduler.py`, `load_schedule` (lines 162-169) applied to
already-parsed file data: build `Schedule(**schedule_data)` and assert
`verify_schedule` on it (an inner assertion failure propagates). -/
def load_schedule (filedata : PyObj) : Except String DynSchedule :=
  match schedule_unpack filedata with
  | .error e => .error e
  | .ok s =>
    match verify_schedule s with
    | .error e => .error e
    | .ok _ => .ok s

/-- The save-then-load round trip of §4.3: `save_schedule` runs first
(and in the code always raises inside `save_json`); had a file been
written, `load_schedule` would then parse it — the most charitable file
content being exactly the `to_json` mapping that was meant to be saved. -/
def round_trip (s : Schedule) : Except String DynSchedule :=
  match save_schedule s with
  | .error e => .error e
  | .ok _ => load_schedule s.to_json

/-- `infra/net_utils.py`, `verify_connection` (lines 14-21): the local
host (`get_system_id()` or `"."`) is always reachable; any other host
goes through `resolve_address`, modelled by the external connectivity
oracle `conn` (a falsy result makes the caller's assert raise). -/
def verify_connection (conn : String → Bool) (sysId host : String) : Bool :=
  if host = sysId ∨ host = "." then true else conn host

/-- A workload lifecycle invocation made by `run_schedule`: which
public method (`setup`/`run`/`teardown` of `WorkloadBase`) is called,
on which workload name, for which node. -/
inductive LEvent where
  | setupEv (workload : Option String) (node : String)
  | runEv (workload : Option String) (node : String)
  | teardownEv (workload : Option String) (node : String)
deriving Repr, DecidableEq

/-- The setup phase of one step (`run_schedule` lines 267-278): for
every load, for every node of its `info`, a local node resolves the
module and calls `setup`; a non-local node is an unimplemented `pass`. -/
def setupEvents (sysId : String) (st : Step) : List LEvent :=
  st.workloads.flatMap (fun l => l.info.nodes.filterMap (fun n =>
    if n = sysId ∨ n = "." then some (.setupEv l.workload n) else none))

/-- The run phase of one step (`run_schedule` lines 280-290). -/
def runEvents (sysId : String) (st : Step) : List LEvent :=
  st.workloads.flatMap (fun l => l.info.nodes.filterMap (fun n =>
    if n = sysId ∨ n = "." then some (.runEv l.workload n) else none))

/-- The teardown phase of one step (`run_schedule` lines 292-302). -/
def teardownEvents (sysId : String) (st : Step) : List LEvent :=
  st.workloads.flatMap (fun l => l.info.nodes.filterMap (fun n =>
    if n = sysId ∨ n = "." then some (.teardownEv l.workload n) else none))

/-- All lifecycle invocations of one step, in phase order. -/
def stepEvents (sysId : String) (st : Step) : List LEvent :=
  setupEvents sysId st ++ runEvents sysId st ++ teardownEvents sysId st

/-- `core/scheduler.py`, `run_schedule` (lines 250-302), observed
through its sequence of workload lifecycle invocations: first every
node of `schedule.info.nodes` must pass `verify_connection` (a failure
raises with no lifecycle call made), then `verify_schedule` is
asserted, then the steps run in order.  The result is the list of
lifecycle events together with the error, if any. -/
def run_schedule_events (conn : String → Bool) (sysId : String)
    (sched : Schedule) : List LEvent × Option String :=
  if ¬ sched.info.nodes.all (verify_connection conn sysId) then
    ([], some "Cannot connect to node")
  else match verify_schedule sched.toDyn with
  | .error e => ([], some e)
  | .ok _ => (sched.steps.flatMap (stepEvents sysId), none)

/-- Take `n` draws from a pseudo-random stream with transition
function `next` starting in state `s` (the draws, in order). -/
def prngTake (next : Nat → Nat × Nat) (s : Nat) : Nat → List Nat
  | 0 => []
  | n + 1 => (next s).1 :: prngTake next (next s).2 n

/-- The stream state after `n` draws from state `s`. -/
def prngState (next : Nat → Nat × Nat) (s : Nat) : Nat → Nat
  | 0 => s
  | n + 1 => prngState next (next s).2 n

/-- The per-step use of the shared random stream in `run_schedule`
(lines 264-265): at step entry the stream is reseeded with
`step.info.seed` (`seedFn` maps a seed to the reseeded stream state,
discarding the incoming state), then the step's workloads consume
`c` draws.  Returns the step's draw sequence and the final state. -/
def stepDraws (next : Nat → Nat × Nat) (seedFn : Int → Nat)
    (st : Step) (c : Nat) : List Nat × Nat :=
  (prngTake next (seedFn st.info.seed) c, prngState next (seedFn st.info.seed) c)

/-- The draw trace of a whole `run_schedule` run over `sched.steps`:
`cs` gives the number of draws the workloads of each step consume
(fixed by the schedule's workloads, hence identical between two runs of
the same schedule), and `s0` is the stream state on entry (arbitrary:
the `Random()` call at line 261 re-runs `__init__`, reseeding the
singleton from the OS).  The state is threaded across steps but each
step begins by reseeding. -/
def run_schedule_draws (next : Nat → Nat × Nat) (seedFn : Int → Nat) :
    List Step → List Nat → Nat → List (List Nat)
  | [], _, _ => []
  | _, [], _ => []
  | st :: sts, c :: cs, _s =>
    (stepDraws next seedFn st c).1 ::
      run_schedule_draws next seedFn sts cs (stepDraws next seedFn st c).2

/-- Allocation-level model of `make_schedule` for the sharing claim:
the single `Info(...)` constructor call of `make_schedule` (line 178)
allocates one object; every `Load`, `Step` and the `Schedule` then
receive the same reference to it (`info=info` throughout the loop).
The store is the list of allocated `Info` objects, addressed by index. -/
def make_schedule_ref (sysId : String) (cfg : Config) :
    Except String (ScheduleG Nat × List Info) :=
  match make_schedule sysId cfg with
  | .error e => .error e
  | .ok s =>
    .ok ({ steps := buildSteps 0 cfg.workloads, info := 0 }, [s.info])

/-- Read an `Info` reference out of the allocation store. -/
def readInfo (store : List Info) (r : Nat) : Option Info :=
  store.get? r

/-- The workload name a parallel-group element contributes, in the
words of the specification: a bare identifier contributes itself, an
object entry contributes its `workload` field. -/
def itemName : WItem → Option String
  | .name s => some s
  | .obj w _ => w

/-! ## Supporting lemmas -/

theorem valid_seed_ok {s v : Int}
    (h : ArgHelperActions.valid_seed s = .ok v) :
    v = s ∧ 0 ≤ s ∧ s ≤ 1000000000 := by
  unfold ArgHelperActions.valid_seed at h
  split at h
  · exact Except.noConfusion h
  · split at h
    · exact Except.noConfusion h
    · injection h with h
      omega

theorem valid_duration_ok {d v : Int}
    (h : ArgHelperActions.valid_duration d = .ok v) :
    v = d ∧ 0 < d ∧ d ≤ 10000 := by
  unfold ArgHelperActions.valid_duration at h
  split at h
  · exact Except.noConfusion h
  · split at h
    · exact Except.noConfusion h
    · injection h with h
      omega

theorem Info.build_ok {n d : Option String} {nodes : List String}
    {dbg : Bool} {ll : String} {sd : Int} {ar : String} {mdur acc : Int}
    {mc mt mm : Option Int} {mmem mcor mthr mwl xwl tmo : Int} {i : Info}
    (h : Info.build n d nodes dbg ll sd ar mdur acc mc mt mm mmem mcor
      mthr mwl xwl tmo = .ok i) :
    i = { name := n, description := d, args := ar, nodes := nodes,
          debug := dbg, log_level := ll, seed := sd, max_duration := mdur,
          accelerators := acc, max_cores := mc, max_threads := mt,
          max_memory := mm, min_memory := mmem, min_cores := mcor,
          min_threads := mthr, timeout := tmo, min_workloads := mwl,
          max_workloads := xwl } ∧
    0 ≤ sd ∧ sd ≤ 1000000000 ∧ 0 < mdur ∧ mdur ≤ 10000 ∧ 0 < acc ∧
    0 < mmem ∧ 0 < mcor ∧ 0 < mthr ∧ 0 < mwl ∧ 0 < xwl ∧
    0 < tmo ∧ tmo ≤ 10000 := by
  unfold Info.build at h
  split at h
  · exact Except.noConfusion h
  split at h
  · exact Except.noConfusion h
  rename_i seedv hseed
  split at h
  · exact Except.noConfusion h
  rename_i durv hdur
  split at h
  · exact Except.noConfusion h
  split at h
  · exact Except.noConfusion h
  split at h
  · exact Except.noConfusion h
  split at h
  · exact Except.noConfusion h
  split at h
  · exact Except.noConfusion h
  split at h
  · exact Except.noConfusion h
  split at h
  · exact Except.noConfusion h
  rename_i tov htmo
  injection h with h
  obtain ⟨hsv, hs0, hs1⟩ := valid_seed_ok hseed
  obtain ⟨hdv, hd0, hd1⟩ := valid_duration_ok hdur
  obtain ⟨htv, ht0, ht1⟩ := valid_duration_ok htmo
  subst hsv hdv htv
  refine ⟨h.symm, hs0, hs1, hd0, hd1, by omega, by omega, by omega,
    by omega, by omega, by omega, ht0, ht1⟩

theorem make_schedule_ok {sysId : String} {cfg : Config} {s : Schedule}
    (h : make_schedule sysId cfg = .ok s) :
    s.steps = buildSteps s.info cfg.workloads ∧
    s.info.name = cfg.name ∧ s.info.description = cfg.description ∧
    truthyStr cfg.name = true ∧ truthyStr cfg.description = true ∧
    s.info.accelerators = cfg.accelerators.getD ConfigDefaultValues.accelerators ∧
    s.info.timeout = cfg.timeout.getD ConfigDefaultValues.timeout ∧
    0 < s.info.accelerators ∧ 0 < s.info.timeout ∧ s.info.timeout ≤ 10000 ∧
    0 ≤ s.info.seed ∧ s.info.seed ≤ 1000000000 := by
  unfold make_schedule at h
  split at h
  · exact Except.noConfusion h
  rename_i info hinfo
  obtain ⟨hrec, hs0, hs1, _, _, hacc, _, _, _, _, _, htm0, htm1⟩ :=
    Info.build_ok hinfo
  split at h
  · exact Except.noConfusion h
  rename_i hname
  split at h
  · exact Except.noConfusion h
  rename_i hdesc
  injection h with h
  subst h
  rw [not_not] at hname hdesc
  subst hrec
  exact ⟨rfl, rfl, rfl, hname, hdesc, rfl, rfl, hacc, htm0, htm1, hs0, hs1⟩

theorem buildLoad_workload (info : α) (it : WItem) :
    (buildLoad info it).workload = itemName it := by
  cases it <;> rfl

theorem buildLoad_info (info : α) (it : WItem) :
    (buildLoad info it).info = info := by
  cases it <;> rfl

theorem entryStep_info (info : α) (e : WEntry) :
    (entryStep info e).info = info := by
  cases e <;> rfl

theorem entryStep_load_info (info : α) (e : WEntry) :
    ∀ l ∈ (entryStep info e).workloads, l.info = info := by
  cases e with
  | single s => intro l hl; simp [entryStep] at hl; simp [hl]
  | obj w meta => intro l hl; simp [entryStep] at hl; simp [hl]
  | group items =>
    intro l hl
    simp [entryStep] at hl
    obtain ⟨it, _, hit⟩ := hl
    rw [← hit, buildLoad_info]

theorem checkLoads_map_toPy (ls : List Load) :
    checkLoads (ls.map Load.toPy) = .ok () := by
  induction ls with
  | nil => rfl
  | cons l rest ih => simpa [Load.toPy, checkLoads] using ih

theorem checkSteps_map_toPy (sts : List Step) :
    checkSteps (sts.map Step.toPy) = .ok () := by
  induction sts with
  | nil => rfl
  | cons st rest ih =>
    simp [Step.toPy, checkSteps, checkLoads_map_toPy, ih]

theorem verify_schedule_toDyn (s : Schedule) :
    verify_schedule (Schedule.toDyn s) =
      if s.steps.isEmpty then .error "Need at least one step in the schedule"
      else .ok true := by
  cases h : s.steps with
  | nil => simp [verify_schedule, Schedule.toDyn, h]
  | cons st rest =>
    have hcs := checkSteps_map_toPy (st :: rest)
    simp only [List.map_cons] at hcs
    simp [verify_schedule, Schedule.toDyn, h, hcs]

/-! ## Concrete sample values

`basicCfg` is the basic scenario configuration of the test suite and of
§8 of the specification (`{name, description, accelerators: 8,
workloads: ["nst"], timeout: 120}`); the other configurations vary it
in the ways the claims need.  `"host"` stands for the local system id. -/

/-- The `Info` that `make_schedule` builds from `basicCfg` on host
`"host"` (all omitted keys at their defaults). -/
def infoBasic : Info :=
  { name := some "Basic example", description := some "Example basic test",
    args := "", nodes := ["host"], debug := false, log_level := "INFO",
    seed := 12345, max_duration := 300, accelerators := 8,
    max_cores := none, max_threads := none, max_memory := none,
    min_memory := 2, min_cores := 1, min_threads := 1, timeout := 120,
    min_workloads := 1, max_workloads := 100 }

/-- The basic one-workload configuration. -/
def basicCfg : Config :=
  { name := some "Basic example", description := some "Example basic test",
    accelerators := some 8, workloads := [.single "nst"],
    timeout := some 120 }

/-- The `Schedule` that `make_schedule` builds from `basicCfg`. -/
def basicSched : Schedule :=
  { steps := [{ workloads := [{ workload := some "nst", info := infoBasic }],
                info := infoBasic }],
    info := infoBasic }

/-- Two sequential bare-string workloads. -/
def seqCfg : Config :=
  { basicCfg with workloads := [.single "nst", .single "sandstone"] }

/-- The `Schedule` built from `seqCfg`. -/
def seqSched : Schedule :=
  { steps := [{ workloads := [{ workload := some "nst", info := infoBasic }],
                info := infoBasic },
              { workloads := [{ workload := some "sandstone", info := infoBasic }],
                info := infoBasic }],
    info := infoBasic }

/-- The complex scenario of §8: a parallel group (an object entry with
an `args` override plus a bare name) followed by a singleton group. -/
def complexCfg : Config :=
  { basicCfg with workloads :=
      [.group [.obj (some "nst") [("args", .mstr "-t individual")],
               .name "sandstone"],
       .group [.name "cornet"]] }

/-- The `Schedule` built from `complexCfg`. -/
def complexSched : Schedule :=
  { steps := [{ workloads := [{ workload := some "nst", info := infoBasic },
                              { workload := some "sandstone", info := infoBasic }],
                info := infoBasic },
              { workloads := [{ workload := some "cornet", info := infoBasic }],
                info := infoBasic }],
    info := infoBasic }

/-- A configuration whose `workloads` list is empty. -/
def emptyWlCfg : Config :=
  { basicCfg with workloads := [] }

/-- A single object entry carrying an `args` override. -/
def overrideCfg : Config :=
  { basicCfg with workloads :=
      [.obj (some "nst") [("args", .mstr "-t individual")]] }

/-- `basicCfg` with an invalid accelerator count. -/
def badAccCfg : Config :=
  { basicCfg with accelerators := some (-1) }

/-- `basicCfg` with an invalid timeout. -/
def badTimeoutCfg : Config :=
  { basicCfg with timeout := some 0 }

/-- `infoBasic` with a single non-local (and unreachable) node. -/
def infoRemote : Info :=
  { infoBasic with nodes := ["nodeX"] }

/-- A schedule whose `info.nodes` names only the unreachable `nodeX`. -/
def remoteSched : Schedule :=
  { steps := [{ workloads := [{ workload := some "nst", info := infoRemote }],
                info := infoRemote }],
    info := infoRemote }

end XA

namespace XA

/-! ## Claim theorems -/

/-- A truthy optional string is neither `None` nor empty. -/
theorem truthyStr_eq_true {o : Option String} :
    truthyStr o = true ↔ o ≠ none ∧ o ≠ some "" := by
  cases o with
  | none => simp [truthyStr]
  | some s => simp [truthyStr]

/-- C1: the save-then-load round-trip law fails in the code.
`save_schedule` always raises: `save_json`'s body is
`json.dumps(str(data), f)` and `json.dumps` accepts only one positional
argument, so a `TypeError` is raised and nothing is written.  Moreover,
even loading the ideally-saved `to_json` mapping fails: `load_schedule`
passes the plain loaded dicts straight to `Schedule(**data)`, so
`verify_schedule`'s `isinstance(step, Step)` assertion raises.
Evaluated at the verified basic one-step schedule. -/
theorem C1_round_trip_fails :
    make_schedule "host" basicCfg = .ok basicSched ∧
    verify_schedule (Schedule.toDyn basicSched) = .ok true ∧
    round_trip basicSched =
      .error "TypeError: dumps() takes 1 positional argument but 2 were given" ∧
    load_schedule (Schedule.to_json basicSched) = .error "Invalid schedule step" :=
  ⟨rfl, rfl, rfl, rfl⟩

/-- C2 counterexample: on a configuration whose `workloads` list is
empty (name and description present and valid), `make_schedule` does
not raise; it returns a `Schedule` with zero steps, and that schedule
fails `verify_schedule`. -/
theorem C2_empty_workloads_counterexample :
    make_schedule "host" emptyWlCfg = .ok { steps := [], info := infoBasic } ∧
    verify_schedule (Schedule.toDyn { steps := [], info := infoBasic }) =
      .error "Need at least one step in the schedule" :=
  ⟨rfl, rfl⟩

/-- C2 (amended): `make_schedule` raises when `name` or `description`
is missing or empty, and any returned `Schedule` passes
`verify_schedule` if and only if the configuration's `workloads` list
is non-empty — an empty `workloads` list yields a zero-step `Schedule`
that `verify_schedule` rejects, rather than a build error. -/
theorem C2_make_schedule_validation (sysId : String) (cfg : Config)
    (s : Schedule) (h : make_schedule sysId cfg = .ok s) :
    (cfg.name ≠ none ∧ cfg.name ≠ some "" ∧
     cfg.description ≠ none ∧ cfg.description ≠ some "") ∧
    (verify_schedule (Schedule.toDyn s) = .ok true ↔ cfg.workloads ≠ []) := by
  obtain ⟨hsteps, _, _, htn, htd, _⟩ := make_schedule_ok h
  obtain ⟨hn1, hn2⟩ := truthyStr_eq_true.mp htn
  obtain ⟨hd1, hd2⟩ := truthyStr_eq_true.mp htd
  refine ⟨⟨hn1, hn2, hd1, hd2⟩, ?_⟩
  rw [verify_schedule_toDyn, hsteps]
  unfold buildSteps
  cases cfg.workloads <;> simp

/-- C2 witness: the amended statement instantiated at the basic
configuration. -/
theorem C2_make_schedule_validation_witness :
    make_schedule "host" basicCfg = .ok basicSched ∧
    ((basicCfg.name ≠ none ∧ basicCfg.name ≠ some "" ∧
      basicCfg.description ≠ none ∧ basicCfg.description ≠ some "") ∧
     (verify_schedule (Schedule.toDyn basicSched) = .ok true ↔
       basicCfg.workloads ≠ [])) :=
  ⟨rfl, C2_make_schedule_validation "host" basicCfg basicSched rfl⟩

/-- C3: for a configuration whose `workloads` are `N` bare string
entries, `make_schedule` returns a `Schedule` with exactly `N` steps in
configuration order, each holding exactly one `Load` named by the
corresponding entry. -/
theorem C3_bare_string_workloads (sysId : String) (cfg : Config)
    (names : List String) (s : Schedule)
    (hok : make_schedule sysId cfg = .ok s)
    (hw : cfg.workloads = names.map WEntry.single) :
    s.steps.length = names.length ∧
    s.steps.map (fun st => st.workloads.map (fun l => l.workload)) =
      names.map (fun n => [some n]) := by
  obtain ⟨hsteps, _⟩ := make_schedule_ok hok
  rw [hsteps, hw]
  unfold buildSteps
  refine ⟨by simp, ?_⟩
  simp [List.map_map, Function.comp, entryStep]

/-- C3 witness: the sequential two-workload scenario of §8. -/
theorem C3_bare_string_workloads_witness :
    make_schedule "host" seqCfg = .ok seqSched ∧
    (seqSched.steps.length = (["nst", "sandstone"] : List String).length ∧
     seqSched.steps.map (fun st => st.workloads.map (fun l => l.workload)) =
       (["nst", "sandstone"] : List String).map (fun n => [some n])) :=
  ⟨rfl, C3_bare_string_workloads "host" seqCfg ["nst", "sandstone"] seqSched
    rfl rfl⟩

/-- C4: a workloads entry that is a list of `K` identifiers and/or
objects yields a `Step` with exactly `K` `Load`s whose workload names
are exactly the names given in the list (an object contributing its
`workload` field); here the code in fact preserves the order, which
implies the claimed set equality. -/
theorem C4_parallel_group (sysId : String) (cfg : Config)
    (items : List WItem) (i : Nat) (s : Schedule)
    (hok : make_schedule sysId cfg = .ok s)
    (hi : cfg.workloads[i]? = some (WEntry.group items)) :
    ∃ st, s.steps[i]? = some st ∧
      st.workloads.length = items.length ∧
      st.workloads.map (fun l => l.workload) = items.map itemName ∧
      (∀ w, w ∈ st.workloads.map (fun l => l.workload) ↔
        w ∈ items.map itemName) := by
  obtain ⟨hsteps, _⟩ := make_schedule_ok hok
  have hmapeq : (items.map (buildLoad s.info)).map (fun l => l.workload) =
      items.map itemName := by
    rw [List.map_map]
    exact List.map_congr_left (fun it _ => buildLoad_workload s.info it)
  refine ⟨entryStep s.info (.group items), ?_, by simp [entryStep], ?_, ?_⟩
  · rw [hsteps]
    unfold buildSteps
    rw [List.getElem?_map, hi]
    rfl
  · exact hmapeq
  · intro w
    rw [show (entryStep s.info (WEntry.group items)).workloads =
      items.map (buildLoad s.info) from rfl, hmapeq]

/-- C4 witness: the first (parallel) entry of the complex scenario of
§8: an object entry for `nst` with an `args` override plus the bare
name `sandstone`. -/
theorem C4_parallel_group_witness :
    make_schedule "host" complexCfg = .ok complexSched ∧
    (∃ st, complexSched.steps[0]? = some st ∧
      st.workloads.length =
        ([.obj (some "nst") [("args", .mstr "-t individual")],
          .name "sandstone"] : List WItem).length ∧
      st.workloads.map (fun l => l.workload) =
        ([.obj (some "nst") [("args", .mstr "-t individual")],
          .name "sandstone"] : List WItem).map itemName ∧
      (∀ w, w ∈ st.workloads.map (fun l => l.workload) ↔
        w ∈ ([.obj (some "nst") [("args", .mstr "-t individual")],
          .name "sandstone"] : List WItem).map itemName)) :=
  ⟨rfl, C4_parallel_group "host" complexCfg
    [.obj (some "nst") [("args", .mstr "-t individual")], .name "sandstone"]
    0 complexSched rfl rfl⟩

/-- C5: `make_schedule` raises for a configured accelerator count ≤ 0
or timeout ≤ 0, and `Info` construction is atomic: an `Info` is
returned only when every numeric constraint holds (seed within
`[0, 10^9]`, duration and timeout within `(0, 10^4]`, positive
accelerator count and minimum memory/cores/threads/workload counts). -/
theorem C5_numeric_constraints :
    (∀ (sysId : String) (cfg : Config) (a : Int),
      cfg.accelerators = some a → a ≤ 0 →
      (make_schedule sysId cfg).isOk = false) ∧
    (∀ (sysId : String) (cfg : Config) (t : Int),
      cfg.timeout = some t → t ≤ 0 →
      (make_schedule sysId cfg).isOk = false) ∧
    (∀ (n d : Option String) (nodes : List String) (dbg : Bool)
       (ll : String) (sd : Int) (ar : String) (mdur acc : Int)
       (mc mt mm : Option Int) (mmem mcor mthr mwl xwl tmo : Int)
       (i : Info),
      Info.build n d nodes dbg ll sd ar mdur acc mc mt mm mmem mcor mthr
        mwl xwl tmo = .ok i →
      0 ≤ i.seed ∧ i.seed ≤ 1000000000 ∧
      0 < i.max_duration ∧ i.max_duration ≤ 10000 ∧
      0 < i.accelerators ∧ 0 < i.min_memory ∧ 0 < i.min_cores ∧
      0 < i.min_threads ∧ 0 < i.min_workloads ∧ 0 < i.max_workloads ∧
      0 < i.timeout ∧ i.timeout ≤ 10000) := by
  refine ⟨?_, ?_, ?_⟩
  · intro sysId cfg a ha hle
    cases hmk : make_schedule sysId cfg with
    | error e => rfl
    | ok s =>
      obtain ⟨_, _, _, _, _, hacc, _, hpos, _⟩ := make_schedule_ok hmk
      rw [ha] at hacc
      simp [Option.getD] at hacc
      omega
  · intro sysId cfg t ht hle
    cases hmk : make_schedule sysId cfg with
    | error e => rfl
    | ok s =>
      obtain ⟨_, _, _, _, _, _, htm, _, htpos, _⟩ := make_schedule_ok hmk
      rw [ht] at htm
      simp [Option.getD] at htm
      omega
  · intro n d nodes dbg ll sd ar mdur acc mc mt mm mmem mcor mthr mwl xwl
      tmo i h
    obtain ⟨hrec, hc⟩ := Info.build_ok h
    subst hrec
    exact hc

/-- C5 witness: the accelerator and timeout parts at the concrete
broken configurations of the test suite, and the atomicity part at the
basic `Info`. -/
theorem C5_numeric_constraints_witness :
    (make_schedule "host" badAccCfg).isOk = false ∧
    (make_schedule "host" badTimeoutCfg).isOk = false ∧
    (0 ≤ infoBasic.seed ∧ infoBasic.seed ≤ 1000000000 ∧
     0 < infoBasic.max_duration ∧ infoBasic.max_duration ≤ 10000 ∧
     0 < infoBasic.accelerators ∧ 0 < infoBasic.min_memory ∧
     0 < infoBasic.min_cores ∧ 0 < infoBasic.min_threads ∧
     0 < infoBasic.min_workloads ∧ 0 < infoBasic.max_workloads ∧
     0 < infoBasic.timeout ∧ infoBasic.timeout ≤ 10000) :=
  ⟨C5_numeric_constraints.1 "host" badAccCfg (-1) rfl (by decide),
   C5_numeric_constraints.2.1 "host" badTimeoutCfg 0 rfl (by decide),
   C5_numeric_constraints.2.2 (some "Basic example")
     (some "Example basic test") ["host"] false "INFO" 12345 "" 300 8
     none none none 2 1 1 1 100 120 infoBasic rfl⟩

/-- Characterization of the draw trace: each step's draws depend only
on that step's seed and consumption count, because the stream is
reseeded at step entry, so the threaded incoming state is discarded. -/
theorem run_schedule_draws_eq (next : Nat → Nat × Nat) (seedFn : Int → Nat)
    (steps : List Step) (cs : List Nat) (s0 : Nat) :
    run_schedule_draws next seedFn steps cs s0 =
      (steps.zip cs).map (fun p => (stepDraws next seedFn p.1 p.2).1) := by
  induction steps generalizing cs s0 with
  | nil => cases cs <;> rfl
  | cons st sts ih =>
    cases cs with
    | nil => rfl
    | cons c cs' =>
      rw [List.zip_cons_cons, List.map_cons]
      show (stepDraws next seedFn st c).1 ::
          run_schedule_draws next seedFn sts cs' (stepDraws next seedFn st c).2 = _
      rw [ih]

/-- C6: running the same schedule twice issues identical draw
sequences from the shared random stream within each step, whatever the
stream state each run starts from, because `run_schedule` reseeds the
stream with `step.info.seed` at step entry; in particular, the `k`-th
draw after the start of step `i` agrees between the two runs. -/
theorem C6_run_schedule_deterministic (next : Nat → Nat × Nat)
    (seedFn : Int → Nat) (sched : Schedule) (cs : List Nat)
    (s1 s2 : Nat) :
    run_schedule_draws next seedFn sched.steps cs s1 =
      run_schedule_draws next seedFn sched.steps cs s2 ∧
    ∀ (i k : Nat),
      ((run_schedule_draws next seedFn sched.steps cs s1)[i]?.bind
        (fun l : List Nat => l[k]?)) =
      ((run_schedule_draws next seedFn sched.steps cs s2)[i]?.bind
        (fun l : List Nat => l[k]?)) := by
  rw [run_schedule_draws_eq next seedFn sched.steps cs s1,
      run_schedule_draws_eq next seedFn sched.steps cs s2]
  exact ⟨rfl, fun i k => rfl⟩

/-- C6 witness: the determinism statement instantiated at a concrete
stream transition, seed map, schedule, consumption profile and two
different initial stream states. -/
theorem C6_run_schedule_deterministic_witness :
    run_schedule_draws (fun s => (s, s + 1)) (fun z => z.toNat)
      basicSched.steps [3] 5 =
      run_schedule_draws (fun s => (s, s + 1)) (fun z => z.toNat)
        basicSched.steps [3] 77 ∧
    ∀ (i k : Nat),
      ((run_schedule_draws (fun s => (s, s + 1)) (fun z => z.toNat)
        basicSched.steps [3] 5)[i]?.bind (fun l : List Nat => l[k]?)) =
      ((run_schedule_draws (fun s => (s, s + 1)) (fun z => z.toNat)
        basicSched.steps [3] 77)[i]?.bind (fun l : List Nat => l[k]?)) :=
  C6_run_schedule_deterministic (fun s => (s, s + 1)) (fun z => z.toNat)
    basicSched [3] 5 77

/-- C7 counterexample: for the object entry
`{"workload": "nst", "args": "-t individual"}` the built `Load`'s
`Info` does not carry the overridden `args` value: `make_schedule`
reads only the `workload` key of an object entry and attaches the
shared top-level `Info`, whose `args` is the top-level default `""`. -/
theorem C7_override_ignored_counterexample :
    make_schedule "host" overrideCfg = .ok basicSched ∧
    basicSched.steps.map (fun st => st.workloads.map
      (fun l => (l.workload, l.info.args))) = [[(some "nst", "")]] ∧
    ¬ infoBasic.args = "-t individual" :=
  ⟨rfl, rfl, by decide⟩

/-- C7 (amended): an object workload entry yields a single-`Load`
`Step` whose `Load` is named by the entry's `workload` field but whose
`Info` is the shared top-level `Info` unchanged — the override metadata
fields of the entry are ignored by `make_schedule`. -/
theorem C7_object_entry_shared_info (sysId : String) (cfg : Config)
    (w : Option String) (meta : List (String × MetaVal)) (i : Nat)
    (s : Schedule) (hok : make_schedule sysId cfg = .ok s)
    (hi : cfg.workloads[i]? = some (WEntry.obj w meta)) :
    s.steps[i]? =
      some { workloads := [{ workload := w, info := s.info }],
             info := s.info } := by
  obtain ⟨hsteps, _⟩ := make_schedule_ok hok
  rw [hsteps]
  unfold buildSteps
  rw [List.getElem?_map, hi]
  rfl

/-- C7 witness: the amended statement at the override configuration. -/
theorem C7_object_entry_shared_info_witness :
    make_schedule "host" overrideCfg = .ok basicSched ∧
    basicSched.steps[0]? =
      some { workloads := [{ workload := some "nst",
                             info := basicSched.info }],
             info := basicSched.info } :=
  ⟨rfl, C7_object_entry_shared_info "host" overrideCfg (some "nst")
    [("args", .mstr "-t individual")] 0 basicSched rfl rfl⟩

/-- C8 counterexample: `verify_schedule` accepts a `Schedule`
containing a `Step` whose `workloads` list is empty (the per-load
checks run zero times), contradicting the claim that it raises on such
a schedule. -/
theorem C8_empty_step_counterexample :
    verify_schedule (Schedule.toDyn
      { steps := [{ workloads := [], info := infoBasic }],
        info := infoBasic }) = .ok true ∧
    ({ workloads := [], info := infoBasic } : Step).workloads.length = 0 :=
  ⟨rfl, rfl⟩

/-- C8 (amended): `verify_schedule` guarantees the steps list is
non-empty — it accepts a schedule exactly when `steps ≠ []` (hence
raises on a zero-step schedule) — but it does not check that each
`Step` contains at least one `Load`. -/
theorem C8_verify_schedule_nonempty_steps (s : Schedule) :
    verify_schedule (Schedule.toDyn s) = .ok true ↔ s.steps ≠ [] := by
  rw [verify_schedule_toDyn]
  cases s.steps <;> simp

/-- C8 witness: the amended statement instantiated at the basic
one-step schedule. -/
theorem C8_verify_schedule_nonempty_steps_witness :
    verify_schedule (Schedule.toDyn basicSched) = .ok true ↔
      basicSched.steps ≠ [] :=
  C8_verify_schedule_nonempty_steps basicSched

/-- C9: an unreachable node in `schedule.info.nodes` makes
`run_schedule` raise before any workload lifecycle method (`setup`,
`run` or `teardown`) is invoked: the event trace is empty and an error
is reported. -/
theorem C9_unreachable_node_aborts (conn : String → Bool)
    (sysId : String) (sched : Schedule) (n : String)
    (hmem : n ∈ sched.info.nodes)
    (hconn : verify_connection conn sysId n = false) :
    (run_schedule_events conn sysId sched).1 = [] ∧
    (run_schedule_events conn sysId sched).2.isSome = true := by
  have hall : ¬ sched.info.nodes.all (verify_connection conn sysId) = true := by
    intro hall
    have hn := List.all_eq_true.mp hall n hmem
    rw [hconn] at hn
    exact Bool.noConfusion hn
  unfold run_schedule_events
  rw [if_pos hall]
  exact ⟨rfl, rfl⟩

/-- C9 witness: a schedule naming only the unreachable node `nodeX`,
with a connectivity oracle that reports every non-local host down. -/
theorem C9_unreachable_node_aborts_witness :
    "nodeX" ∈ remoteSched.info.nodes ∧
    verify_connection (fun _ => false) "host" "nodeX" = false ∧
    ((run_schedule_events (fun _ => false) "host" remoteSched).1 = [] ∧
     (run_schedule_events (fun _ => false) "host" remoteSched).2.isSome
       = true) :=
  ⟨List.mem_singleton.mpr rfl, rfl,
   C9_unreachable_node_aborts (fun _ => false) "host" remoteSched "nodeX"
     (List.mem_singleton.mpr rfl) rfl⟩

/-- In the step-building loop, every produced `Step` and every `Load`
inside it carries exactly the one `info` reference passed in. -/
theorem buildSteps_info_refs (r : α) (ws : List WEntry) :
    ∀ st ∈ buildSteps r ws, st.info = r ∧ ∀ l ∈ st.workloads, l.info = r := by
  intro st hst
  unfold buildSteps at hst
  obtain ⟨e, _, he⟩ := List.mem_map.mp hst
  subst he
  exact ⟨entryStep_info r e, entryStep_load_info r e⟩

/-- C10: `make_schedule` allocates exactly one `Info` object, and the
`Schedule`, every `Step` and every `Load` hold the very same reference
to it; consequently all steps share the same seed and constraint
values, and replacing the `Info` at that reference (a mutation or
reseed) is observed through the schedule's reference and through every
step's and load's reference alike. -/
theorem C10_shared_info_reference (sysId : String) (cfg : Config)
    (s : ScheduleG Nat) (store : List Info)
    (h : make_schedule_ref sysId cfg = .ok (s, store)) :
    store.length = 1 ∧
    (∀ st ∈ s.steps, st.info = s.info) ∧
    (∀ st ∈ s.steps, ∀ l ∈ st.workloads, l.info = s.info) ∧
    (∀ i' : Info, readInfo (store.set s.info i') s.info = some i' ∧
      ∀ st ∈ s.steps, readInfo (store.set s.info i') st.info = some i') := by
  unfold make_schedule_ref at h
  split at h
  · exact Except.noConfusion h
  rename_i s0 hs0
  injection h with h
  rw [Prod.mk.injEq] at h
  obtain ⟨hs, hstore⟩ := h
  subst hs
  subst hstore
  refine ⟨rfl, ?_, ?_, ?_⟩
  · intro st hst
    exact (buildSteps_info_refs 0 cfg.workloads st hst).1
  · intro st hst
    exact (buildSteps_info_refs 0 cfg.workloads st hst).2
  · intro i'
    refine ⟨rfl, ?_⟩
    intro st hst
    rw [(buildSteps_info_refs 0 cfg.workloads st hst).1]
    rfl

/-- The reference-level schedule built from `basicCfg`: one allocated
`Info` at address `0`, shared by the schedule, its step and its load. -/
def refSched : ScheduleG Nat :=
  { steps := [{ workloads := [{ workload := some "nst", info := 0 }],
                info := 0 }],
    info := 0 }

/-- C10 witness: the reference-level build at the basic configuration. -/
theorem C10_shared_info_reference_witness :
    make_schedule_ref "host" basicCfg = .ok (refSched, [infoBasic]) ∧
    ([infoBasic].length = 1 ∧
     (∀ st ∈ refSched.steps, st.info = refSched.info) ∧
     (∀ st ∈ refSched.steps, ∀ l ∈ st.workloads, l.info = refSched.info) ∧
     (∀ i' : Info,
       readInfo ([infoBasic].set refSched.info i') refSched.info = some i' ∧
       ∀ st ∈ refSched.steps,
         readInfo ([infoBasic].set refSched.info i') st.info = some i')) :=
  ⟨rfl, C10_shared_info_reference "host" basicCfg refSched [infoBasic] rfl⟩

end XA
